import Mathlib

/-!
Verification of the order-service behaviour contract described by the
repository's specification and exercised by
`src/bdd-unit-test/examples/python-example-test.py`.

The repository ships only the unit tests; the `OrderService` module itself
(`order_service.py`) and the repository collaborators are absent.  The
service is therefore modelled from the specification: each operation is a
pure function over an environment of injected collaborator behaviours
(stock lookup, order lookup, persistence, time source) that returns the
operation's result together with the ordered list of repository calls it
performed, so that call-count properties ("reserve_stock is invoked
exactly once") become statements about that list.
-/

namespace OrderModel

inductive OrderStatus
  | CREATED
  | CANCELLED
  | SHIPPED
  deriving DecidableEq

structure OrderItem where
  product_id : String
  quantity : Nat
  unit_price : ℚ
  deriving DecidableEq

structure Order where
  id : Option String
  product_id : String
  quantity : Int
  customer_id : String
  status : OrderStatus
  created_at : Nat
  items : List OrderItem
  deriving DecidableEq

inductive OrderError
  | invalidOrder (msg : String)
  | insufficientStock (msg : String)
  deriving DecidableEq

/-- A single call made to one of the two repository collaborators. -/
inductive RepoCall
  | getStock (product_id : String)
  | reserveStock (product_id : String) (quantity : Int)
  | releaseStock (product_id : String) (quantity : Int)
  | save (order : Order)
  | findById (order_id : String)
  deriving DecidableEq

/-- Injected collaborator behaviours: the inventory repository's stock
lookup, the order repository's lookup and persistence (persistence may
assign an id), and the injected time source. -/
structure Env where
  get_stock : String → Nat
  find_by_id : String → Option Order
  save : Order → Order
  now : Nat

/-- The string `s` contains `pat` as a contiguous substring. -/
def containsStr (s pat : String) : Prop :=
  ∃ a b : String, s = a ++ pat ++ b

/-- Modelled from the spec: message of `InsufficientStockError`, which
"must include the product identifier" and name "the product and shortfall
context". -/
def insufficientMsg (product_id : String) (requested : Int) (available : Nat) : String :=
  "Insufficient stock for product " ++ product_id ++
    (": requested " ++ toString requested ++ ", available " ++ toString available)

/-- Modelled from the spec: `OrderService.create_order` is absent from the
sources (only its tests are present).  Following the spec: validates
`quantity > 0`, failing with `InvalidOrderError ("Quantity must be
positive")` otherwise; queries current stock and fails with
`InsufficientStockError` naming the product if stock < quantity; on
success reserves the quantity, constructs an `Order` with status `CREATED`
and `created_at` equal to the time source's current value, persists it and
returns the persisted record.  The second component lists the repository
calls in order. -/
def create_order (env : Env) (product_id : String) (quantity : Int)
    (customer_id : String) : Except OrderError Order × List RepoCall :=
  if quantity ≤ 0 then
    (Except.error (OrderError.invalidOrder "Quantity must be positive"), [])
  else if (env.get_stock product_id : Int) < quantity then
    (Except.error (OrderError.insufficientStock
        (insufficientMsg product_id quantity (env.get_stock product_id))),
      [RepoCall.getStock product_id])
  else
    let order : Order :=
      { id := none, product_id := product_id, quantity := quantity,
        customer_id := customer_id, status := OrderStatus.CREATED,
        created_at := env.now, items := [] }
    (Except.ok (env.save order),
      [RepoCall.getStock product_id, RepoCall.reserveStock product_id quantity,
        RepoCall.save order])

/-- Modelled from the spec: `OrderService.cancel_order` is absent from the
sources.  Looks up the order by id, failing with `InvalidOrderError
("Order not found")` if absent; fails with `InvalidOrderError ("Cannot
cancel shipped order")` if the status is `SHIPPED`; otherwise sets the
status to `CANCELLED`, releases the reserved quantity back to inventory,
persists, and returns the updated order. -/
def cancel_order (env : Env) (order_id : String) :
    Except OrderError Order × List RepoCall :=
  match env.find_by_id order_id with
  | none =>
      (Except.error (OrderError.invalidOrder "Order not found"),
        [RepoCall.findById order_id])
  | some o =>
      if o.status = OrderStatus.SHIPPED then
        (Except.error (OrderError.invalidOrder "Cannot cancel shipped order"),
          [RepoCall.findById order_id])
      else
        let updated := { o with status := OrderStatus.CANCELLED }
        (Except.ok updated,
          [RepoCall.findById order_id,
            RepoCall.releaseStock o.product_id o.quantity,
            RepoCall.save updated])

/-- Sum of `quantity × unit_price` over the items. -/
def subtotal (items : List OrderItem) : ℚ :=
  (items.map (fun it => (it.quantity : ℚ) * it.unit_price)).sum

/-- Discount threshold: 1000.00 (configuration constant). -/
def DISCOUNT_THRESHOLD : ℚ := 1000

/-- Discount rate: 10% (configuration constant). -/
def DISCOUNT_RATE : ℚ := 1 / 10

/-- Rounding to 2 decimal places (currency representation). -/
def round2 (q : ℚ) : ℚ := (round (q * 100) : ℚ) / 100

/-- Modelled from the spec: `OrderService.calculate_order_total` is absent
from the sources.  Looks up the order, sums `quantity × unit_price` over
its items (empty items give 0.00), applies a 10% discount to the whole
subtotal when the subtotal strictly exceeds the 1000.00 threshold, and
returns the result as currency with 2 decimal places, in exact decimal
arithmetic. -/
def calculate_order_total (env : Env) (order_id : String) :
    Except OrderError ℚ × List RepoCall :=
  match env.find_by_id order_id with
  | none =>
      (Except.error (OrderError.invalidOrder "Order not found"),
        [RepoCall.findById order_id])
  | some o =>
      let sub := subtotal o.items
      let total := if DISCOUNT_THRESHOLD < sub then sub * (1 - DISCOUNT_RATE) else sub
      (Except.ok (round2 total), [RepoCall.findById order_id])

/-! Concrete fixtures mirroring the ones set up by the unit tests. -/

def envCreate : Env :=
  { get_stock := fun _ => 100,
    find_by_id := fun _ => none,
    save := fun o => { o with id := some "ORD-001" },
    now := 20240115 }

def envLowStock : Env :=
  { get_stock := fun _ => 3, find_by_id := fun _ => none,
    save := fun o => o, now := 0 }

def orderBase : Order :=
  { id := some "ORD-001", product_id := "PROD-A", quantity := 5,
    customer_id := "CUST-001", status := OrderStatus.CREATED,
    created_at := 0, items := [] }

def orderShipped : Order := { orderBase with status := OrderStatus.SHIPPED }

def orderItems350 : Order :=
  { orderBase with items := [⟨"A", 2, 100⟩, ⟨"B", 3, 50⟩] }

def orderItems1500 : Order :=
  { orderBase with items := [⟨"A", 10, 150⟩] }

def envWith (o : Order) : Env :=
  { get_stock := fun _ => 0, find_by_id := fun _ => some o,
    save := fun o => o, now := 0 }

def envNoOrder : Env :=
  { get_stock := fun _ => 0, find_by_id := fun _ => none,
    save := fun o => o, now := 0 }

/-! Helper lemmas about currency amounts. -/

/-- A rational that is a whole number of cents is unchanged by rounding to
2 decimal places. -/
lemma round2_of_cents (q : ℚ) (n : ℤ) (h : q * 100 = n) : round2 q = q := by
  rw [round2, h, round_intCast, div_eq_iff (by norm_num : (100 : ℚ) ≠ 0)]
  exact h.symm

/-- If every item's unit price is a whole number of cents then so is the
subtotal. -/
lemma subtotal_cents (items : List OrderItem)
    (h : ∀ it ∈ items, ∃ n : ℤ, it.unit_price * 100 = n) :
    ∃ m : ℤ, subtotal items * 100 = m := by
  induction items with
  | nil => exact ⟨0, by simp [subtotal]⟩
  | cons it rest ih =>
      obtain ⟨n, hn⟩ := h it (by simp)
      obtain ⟨m, hm⟩ := ih (fun x hx => h x (by simp [hx]))
      refine ⟨(it.quantity : ℤ) * n + m, ?_⟩
      have hcons : subtotal (it :: rest)
          = (it.quantity : ℚ) * it.unit_price + subtotal rest := by
        simp [subtotal]
      rw [hcons]
      calc ((it.quantity : ℚ) * it.unit_price + subtotal rest) * 100
          = (it.quantity : ℚ) * (it.unit_price * 100) + subtotal rest * 100 := by ring
        _ = (it.quantity : ℚ) * (n : ℚ) + (m : ℚ) := by rw [hn, hm]
        _ = (((it.quantity : ℤ) * n + m : ℤ) : ℚ) := by push_cast; ring

/-- C4: create_order with quantity ≤ 0 fails with InvalidOrderError whose
message contains "Quantity must be positive", and it fails before any
repository mutation occurs: the call trace is empty, so in particular no
stock is reserved and no order is saved. -/
theorem create_order_nonpositive_quantity_fails
    (env : Env) (product_id customer_id : String) (quantity : Int)
    (hq : quantity ≤ 0) :
    (∃ msg, (create_order env product_id quantity customer_id).1
        = Except.error (OrderError.invalidOrder msg) ∧
        containsStr msg "Quantity must be positive") ∧
      (create_order env product_id quantity customer_id).2 = [] ∧
      (∀ p q, RepoCall.reserveStock p q ∉
        (create_order env product_id quantity customer_id).2) ∧
      (∀ o, RepoCall.save o ∉
        (create_order env product_id quantity customer_id).2) := by
  refine ⟨⟨"Quantity must be positive", ?_, "", "", by simp⟩, ?_, ?_, ?_⟩
  · simp [create_order, hq]
  · simp [create_order, hq]
  · intro p q
    simp [create_order, hq]
  · intro o
    simp [create_order, hq]

theorem create_order_nonpositive_quantity_fails_witness :
    (0 : Int) ≤ 0 ∧
      ((∃ msg, (create_order envCreate "PROD-A" 0 "CUST-001").1
          = Except.error (OrderError.invalidOrder msg) ∧
          containsStr msg "Quantity must be positive") ∧
        (create_order envCreate "PROD-A" 0 "CUST-001").2 = [] ∧
        (∀ p q, RepoCall.reserveStock p q ∉
          (create_order envCreate "PROD-A" 0 "CUST-001").2) ∧
        (∀ o, RepoCall.save o ∉
          (create_order envCreate "PROD-A" 0 "CUST-001").2)) :=
  ⟨le_refl 0,
    create_order_nonpositive_quantity_fails envCreate "PROD-A" "CUST-001" 0 (le_refl 0)⟩

/-- C10: create_order with quantity ≤ 0 validates the quantity before any
inventory access: get_stock is never invoked (the trace holds no getStock
call for any product). -/
theorem create_order_nonpositive_quantity_no_stock_query
    (env : Env) (product_id customer_id : String) (quantity : Int)
    (hq : quantity ≤ 0) :
    ∀ p, RepoCall.getStock p ∉
      (create_order env product_id quantity customer_id).2 := by
  intro p
  simp [create_order, hq]

theorem create_order_nonpositive_quantity_no_stock_query_witness :
    (-5 : Int) ≤ 0 ∧
      ∀ p, RepoCall.getStock p ∉
        (create_order envCreate "PROD-A" (-5) "CUST-001").2 :=
  ⟨by norm_num,
    create_order_nonpositive_quantity_no_stock_query envCreate "PROD-A" "CUST-001" (-5)
      (by norm_num)⟩

/-- C3: create_order with positive quantity exceeding the available stock
fails with InsufficientStockError whose message includes the product
identifier, and reserve_stock is never invoked. -/
theorem create_order_insufficient_stock_fails
    (env : Env) (product_id customer_id : String) (quantity : Int)
    (hq : 0 < quantity) (hstock : (env.get_stock product_id : Int) < quantity) :
    (∃ msg, (create_order env product_id quantity customer_id).1
        = Except.error (OrderError.insufficientStock msg) ∧
        containsStr msg product_id) ∧
      ∀ p q, RepoCall.reserveStock p q ∉
        (create_order env product_id quantity customer_id).2 := by
  have hq' : ¬ quantity ≤ 0 := not_le.mpr hq
  refine ⟨⟨insufficientMsg product_id quantity (env.get_stock product_id), ?_,
    "Insufficient stock for product ",
    ": requested " ++ toString quantity ++ ", available "
      ++ toString (env.get_stock product_id), rfl⟩, ?_⟩
  · simp [create_order, hq', hstock]
  · intro p q
    simp [create_order, hq', hstock]

theorem create_order_insufficient_stock_fails_witness :
    (0 : Int) < 10 ∧ ((envLowStock.get_stock "PROD-A" : Int) < 10) ∧
      ((∃ msg, (create_order envLowStock "PROD-A" 10 "CUST-001").1
          = Except.error (OrderError.insufficientStock msg) ∧
          containsStr msg "PROD-A") ∧
        ∀ p q, RepoCall.reserveStock p q ∉
          (create_order envLowStock "PROD-A" 10 "CUST-001").2) :=
  ⟨by norm_num, by norm_num [envLowStock],
    create_order_insufficient_stock_fails envLowStock "PROD-A" "CUST-001" 10
      (by norm_num) (by norm_num [envLowStock])⟩

/-- C2: create_order with positive quantity and sufficient stock reserves
stock exactly once with exactly (product_id, quantity), constructs an
order with status CREATED, persists it via save, and returns the persisted
record. -/
theorem create_order_success_reserves_once_and_saves
    (env : Env) (product_id customer_id : String) (quantity : Int)
    (hq : 0 < quantity) (hstock : quantity ≤ (env.get_stock product_id : Int)) :
    ∃ o : Order,
      create_order env product_id quantity customer_id
          = (Except.ok (env.save o),
            [RepoCall.getStock product_id,
              RepoCall.reserveStock product_id quantity, RepoCall.save o]) ∧
        o.status = OrderStatus.CREATED ∧ o.product_id = product_id ∧
        o.quantity = quantity ∧ o.customer_id = customer_id ∧
        (create_order env product_id quantity customer_id).2.count
          (RepoCall.reserveStock product_id quantity) = 1 ∧
        (∀ p q, RepoCall.reserveStock p q ∈
            (create_order env product_id quantity customer_id).2 →
          p = product_id ∧ q = quantity) := by
  have hq' : ¬ quantity ≤ 0 := not_le.mpr hq
  have hs' : ¬ ((env.get_stock product_id : Int) < quantity) := not_lt.mpr hstock
  refine ⟨{ id := none, product_id := product_id, quantity := quantity,
            customer_id := customer_id, status := OrderStatus.CREATED,
            created_at := env.now, items := [] },
    ?_, rfl, rfl, rfl, rfl, ?_, ?_⟩
  · simp [create_order, hq', hs']
  · simp [create_order, hq', hs', List.count_cons]
  · intro p q hmem
    simp only [create_order, hq', hs', if_false, if_neg, List.mem_cons,
      List.mem_singleton, List.not_mem_nil, or_false] at hmem
    rcases hmem with h | h | h
    · cases h
    · exact ⟨(RepoCall.reserveStock.injEq _ _ _ _).mp h |>.1,
        (RepoCall.reserveStock.injEq _ _ _ _).mp h |>.2⟩
    · cases h

theorem create_order_success_reserves_once_and_saves_witness :
    (0 : Int) < 5 ∧ ((5 : Int) ≤ (envCreate.get_stock "PROD-A" : Int)) ∧
      ∃ o : Order,
        create_order envCreate "PROD-A" 5 "CUST-001"
            = (Except.ok (envCreate.save o),
              [RepoCall.getStock "PROD-A", RepoCall.reserveStock "PROD-A" 5,
                RepoCall.save o]) ∧
          o.status = OrderStatus.CREATED ∧ o.product_id = "PROD-A" ∧
          o.quantity = 5 ∧ o.customer_id = "CUST-001" ∧
          (create_order envCreate "PROD-A" 5 "CUST-001").2.count
            (RepoCall.reserveStock "PROD-A" 5) = 1 ∧
          (∀ p q, RepoCall.reserveStock p q ∈
              (create_order envCreate "PROD-A" 5 "CUST-001").2 →
            p = "PROD-A" ∧ q = 5) :=
  ⟨by norm_num, by norm_num [envCreate],
    create_order_success_reserves_once_and_saves envCreate "PROD-A" "CUST-001" 5
      (by norm_num) (by norm_num [envCreate])⟩

/-- C9: on a successful create_order, the order passed to
OrderRepository.save carries created_at equal to the injected time
source's current value: the trace holds a save call, and every saved order
has created_at = env.now. -/
theorem create_order_sets_created_at_from_time_source
    (env : Env) (product_id customer_id : String) (quantity : Int)
    (hq : 0 < quantity) (hstock : quantity ≤ (env.get_stock product_id : Int)) :
    (∃ o, RepoCall.save o ∈ (create_order env product_id quantity customer_id).2) ∧
      ∀ o, RepoCall.save o ∈ (create_order env product_id quantity customer_id).2 →
        o.created_at = env.now := by
  have hq' : ¬ quantity ≤ 0 := not_le.mpr hq
  have hs' : ¬ ((env.get_stock product_id : Int) < quantity) := not_lt.mpr hstock
  constructor
  · refine ⟨{ id := none, product_id := product_id, quantity := quantity,
              customer_id := customer_id, status := OrderStatus.CREATED,
              created_at := env.now, items := [] }, ?_⟩
    simp [create_order, hq', hs']
  · intro o hmem
    simp only [create_order, hq', hs', if_false, if_neg, List.mem_cons,
      List.mem_singleton, List.not_mem_nil, or_false] at hmem
    rcases hmem with h | h | h
    · cases h
    · cases h
    · rw [(RepoCall.save.injEq _ _).mp h]

theorem create_order_sets_created_at_witness :
    (0 : Int) < 1 ∧ ((1 : Int) ≤ (envCreate.get_stock "PROD-A" : Int)) ∧
      ((∃ o, RepoCall.save o ∈ (create_order envCreate "PROD-A" 1 "CUST-001").2) ∧
        ∀ o, RepoCall.save o ∈ (create_order envCreate "PROD-A" 1 "CUST-001").2 →
          o.created_at = envCreate.now) :=
  ⟨by norm_num, by norm_num [envCreate],
    create_order_sets_created_at_from_time_source envCreate "PROD-A" "CUST-001" 1
      (by norm_num) (by norm_num [envCreate])⟩

/-- C5: cancel_order on a stored order with status CREATED sets the status
to CANCELLED, invokes release_stock exactly once with exactly the order's
(product_id, quantity), persists the updated order, and returns it. -/
theorem cancel_order_created_cancels_and_releases
    (env : Env) (order_id : String) (o : Order)
    (hfind : env.find_by_id order_id = some o)
    (hstatus : o.status = OrderStatus.CREATED) :
    (cancel_order env order_id).1
        = Except.ok { o with status := OrderStatus.CANCELLED } ∧
      (cancel_order env order_id).2.count
        (RepoCall.releaseStock o.product_id o.quantity) = 1 ∧
      (∀ p q, RepoCall.releaseStock p q ∈ (cancel_order env order_id).2 →
        p = o.product_id ∧ q = o.quantity) ∧
      RepoCall.save { o with status := OrderStatus.CANCELLED }
        ∈ (cancel_order env order_id).2 := by
  have hns : ¬ o.status = OrderStatus.SHIPPED := by
    rw [hstatus]; intro h; cases h
  refine ⟨?_, ?_, ?_, ?_⟩
  · simp [cancel_order, hfind, hns]
  · simp [cancel_order, hfind, hns, List.count_cons]
  · intro p q hmem
    simp only [cancel_order, hfind, hns, if_false, if_neg, List.mem_cons,
      List.mem_singleton, List.not_mem_nil, or_false] at hmem
    rcases hmem with h | h | h
    · cases h
    · exact ⟨((RepoCall.releaseStock.injEq _ _ _ _).mp h).1,
        ((RepoCall.releaseStock.injEq _ _ _ _).mp h).2⟩
    · cases h
  · simp [cancel_order, hfind, hns]

theorem cancel_order_created_witness :
    (envWith orderBase).find_by_id "ORD-001" = some orderBase ∧
      orderBase.status = OrderStatus.CREATED ∧
      ((cancel_order (envWith orderBase) "ORD-001").1
          = Except.ok { orderBase with status := OrderStatus.CANCELLED } ∧
        (cancel_order (envWith orderBase) "ORD-001").2.count
          (RepoCall.releaseStock orderBase.product_id orderBase.quantity) = 1 ∧
        (∀ p q, RepoCall.releaseStock p q
            ∈ (cancel_order (envWith orderBase) "ORD-001").2 →
          p = orderBase.product_id ∧ q = orderBase.quantity) ∧
        RepoCall.save { orderBase with status := OrderStatus.CANCELLED }
          ∈ (cancel_order (envWith orderBase) "ORD-001").2) :=
  ⟨rfl, rfl,
    cancel_order_created_cancels_and_releases (envWith orderBase) "ORD-001" orderBase
      rfl rfl⟩

/-- C6: cancel_order on a stored order with status SHIPPED fails with
InvalidOrderError whose message contains "Cannot cancel shipped order",
release_stock is never invoked, and no order is persisted (so the stored
status never transitions from SHIPPED to CANCELLED). -/
theorem cancel_order_shipped_fails
    (env : Env) (order_id : String) (o : Order)
    (hfind : env.find_by_id order_id = some o)
    (hstatus : o.status = OrderStatus.SHIPPED) :
    (∃ msg, (cancel_order env order_id).1
        = Except.error (OrderError.invalidOrder msg) ∧
        containsStr msg "Cannot cancel shipped order") ∧
      (∀ p q, RepoCall.releaseStock p q ∉ (cancel_order env order_id).2) ∧
      (∀ o2, RepoCall.save o2 ∉ (cancel_order env order_id).2) := by
  refine ⟨⟨"Cannot cancel shipped order", ?_, "", "", by simp⟩, ?_, ?_⟩
  · simp [cancel_order, hfind, hstatus]
  · intro p q
    simp [cancel_order, hfind, hstatus]
  · intro o2
    simp [cancel_order, hfind, hstatus]

theorem cancel_order_shipped_fails_witness :
    (envWith orderShipped).find_by_id "ORD-001" = some orderShipped ∧
      orderShipped.status = OrderStatus.SHIPPED ∧
      ((∃ msg, (cancel_order (envWith orderShipped) "ORD-001").1
          = Except.error (OrderError.invalidOrder msg) ∧
          containsStr msg "Cannot cancel shipped order") ∧
        (∀ p q, RepoCall.releaseStock p q
          ∉ (cancel_order (envWith orderShipped) "ORD-001").2) ∧
        (∀ o2, RepoCall.save o2
          ∉ (cancel_order (envWith orderShipped) "ORD-001").2)) :=
  ⟨rfl, rfl,
    cancel_order_shipped_fails (envWith orderShipped) "ORD-001" orderShipped rfl rfl⟩

/-- C7: cancel_order on an id for which find_by_id returns absent fails
with InvalidOrderError whose message contains "Order not found". -/
theorem cancel_order_unknown_id_fails
    (env : Env) (order_id : String)
    (hfind : env.find_by_id order_id = none) :
    ∃ msg, (cancel_order env order_id).1
        = Except.error (OrderError.invalidOrder msg) ∧
      containsStr msg "Order not found" := by
  refine ⟨"Order not found", ?_, "", "", by simp⟩
  simp [cancel_order, hfind]

theorem cancel_order_unknown_id_fails_witness :
    envNoOrder.find_by_id "ORD-999" = none ∧
      ∃ msg, (cancel_order envNoOrder "ORD-999").1
          = Except.error (OrderError.invalidOrder msg) ∧
        containsStr msg "Order not found" :=
  ⟨rfl, cancel_order_unknown_id_fails envNoOrder "ORD-999" rfl⟩

/-- C1: calculate_order_total on an order whose subtotal strictly exceeds
the 1000.00 threshold applies the 10% discount to the whole subtotal and
returns the discounted amount as an exact decimal with 2 decimal places
(a whole number of hundredths). -/
theorem calculate_total_applies_discount_above_threshold
    (env : Env) (order_id : String) (o : Order)
    (hfind : env.find_by_id order_id = some o)
    (hsub : DISCOUNT_THRESHOLD < subtotal o.items) :
    (calculate_order_total env order_id).1
        = Except.ok (round2 (subtotal o.items * (1 - DISCOUNT_RATE))) ∧
      ∃ m : ℤ, (calculate_order_total env order_id).1
        = Except.ok ((m : ℚ) / 100) := by
  have h1 : (calculate_order_total env order_id).1
      = Except.ok (round2 (subtotal o.items * (1 - DISCOUNT_RATE))) := by
    simp [calculate_order_total, hfind, hsub]
  exact ⟨h1, ⟨round (subtotal o.items * (1 - DISCOUNT_RATE) * 100), by
    rw [h1]; rfl⟩⟩

theorem calculate_total_discount_witness :
    (envWith orderItems1500).find_by_id "ORD-001" = some orderItems1500 ∧
      DISCOUNT_THRESHOLD < subtotal orderItems1500.items ∧
      (calculate_order_total (envWith orderItems1500) "ORD-001").1
        = Except.ok (1350 : ℚ) := by
  have hsub : DISCOUNT_THRESHOLD < subtotal orderItems1500.items := by
    norm_num [subtotal, orderItems1500, orderBase, DISCOUNT_THRESHOLD]
  have h := calculate_total_applies_discount_above_threshold
    (envWith orderItems1500) "ORD-001" orderItems1500 rfl hsub
  refine ⟨rfl, hsub, ?_⟩
  rw [h.1]
  norm_num [subtotal, orderItems1500, orderBase, DISCOUNT_RATE, round2]

/-- C8: calculate_order_total on an order whose subtotal does not exceed
the 1000.00 threshold (all unit prices being whole numbers of cents)
returns the undiscounted sum of quantity × unit_price over the items; an
empty items list yields 0.00. -/
theorem calculate_total_no_discount_below_threshold
    (env : Env) (order_id : String) (o : Order)
    (hfind : env.find_by_id order_id = some o)
    (hsub : subtotal o.items ≤ DISCOUNT_THRESHOLD)
    (hcents : ∀ it ∈ o.items, ∃ n : ℤ, it.unit_price * 100 = n) :
    (calculate_order_total env order_id).1 = Except.ok (subtotal o.items) := by
  obtain ⟨m, hm⟩ := subtotal_cents o.items hcents
  have hnot : ¬ DISCOUNT_THRESHOLD < subtotal o.items := not_lt.mpr hsub
  simp [calculate_order_total, hfind, hnot, round2_of_cents _ m hm]

theorem calculate_total_no_discount_witness :
    ((envWith orderItems350).find_by_id "ORD-001" = some orderItems350 ∧
        subtotal orderItems350.items ≤ DISCOUNT_THRESHOLD ∧
        (calculate_order_total (envWith orderItems350) "ORD-001").1
          = Except.ok (350 : ℚ)) ∧
      ((envWith orderBase).find_by_id "ORD-002" = some orderBase ∧
        subtotal orderBase.items ≤ DISCOUNT_THRESHOLD ∧
        (calculate_order_total (envWith orderBase) "ORD-002").1
          = Except.ok (0 : ℚ)) := by
  have hsub1 : subtotal orderItems350.items ≤ DISCOUNT_THRESHOLD := by
    norm_num [subtotal, orderItems350, orderBase, DISCOUNT_THRESHOLD]
  have hcents1 : ∀ it ∈ orderItems350.items, ∃ n : ℤ, it.unit_price * 100 = n := by
    intro it hit
    simp only [orderItems350, orderBase, List.mem_cons, List.not_mem_nil,
      or_false] at hit
    rcases hit with h | h
    · exact ⟨10000, by rw [h]; norm_num⟩
    · exact ⟨5000, by rw [h]; norm_num⟩
  have h1 := calculate_total_no_discount_below_threshold
    (envWith orderItems350) "ORD-001" orderItems350 rfl hsub1 hcents1
  have hsub2 : subtotal orderBase.items ≤ DISCOUNT_THRESHOLD := by
    norm_num [subtotal, orderBase, DISCOUNT_THRESHOLD]
  have hcents2 : ∀ it ∈ orderBase.items, ∃ n : ℤ, it.unit_price * 100 = n := by
    intro it hit
    simp [orderBase] at hit
  have h2 := calculate_total_no_discount_below_threshold
    (envWith orderBase) "ORD-002" orderBase rfl hsub2 hcents2
  refine ⟨⟨rfl, hsub1, ?_⟩, ⟨rfl, hsub2, ?_⟩⟩
  · rw [h1]
    norm_num [subtotal, orderItems350, orderBase]
  · rw [h2]
    norm_num [subtotal, orderBase]

end OrderModel
